import Mathlib

/-!
Verification of the versioduo/express firmware core (16-channel analog
expression controller).

The development shallow-embeds the sensor-to-event pipeline, the settings
importing path and the daisy-chain link router of the two firmware revisions:

* `src/firmware/express/express.ino` (metadata version 24, the current
  revision, with a per-port configuration block), and
* `src/express.ino` (metadata version 22, the older revision, with a single
  device-wide MIDI channel).

Floating-point values (`float` range bounds, fractions) are modelled as
rationals; 8-bit machine integers are modelled as `Nat` restricted to their
value range at the call sites.  External collaborators (ADC, LED strip,
V2Potentiometer smoothing filter, transports) are modelled through the
interface contract the firmware relies on: the filter exposes a quantized
step (the device treats it as a `uint8_t`) and a fractional value, and the
transports are modelled as message sinks.
-/

/-- Per-port range configuration:
`struct { bool invert{}; float min{}; float max{1}; } range;`
(`src/firmware/express/express.ino` lines 46-50). -/
structure Range where
  invert : Bool
  min : ℚ
  max : ℚ
deriving DecidableEq

/-- Per-port configuration: `uint8_t channel; uint8_t controller;` plus the
range (`src/firmware/express/express.ino` lines 41-51). -/
structure PortConfig where
  channel : Nat
  controller : Nat
  range : Range
deriving DecidableEq

/-- Constant `V2MIDI::CC::GeneralPurpose1`, controller number 16: the default
controller of port 0; port `i` defaults to `GeneralPurpose1 + i`. -/
def ccGeneralPurpose1 : Nat := 16

/-- The default per-port configuration of firmware v24
(`src/firmware/express/express.ino` lines 52-69): channel 0, controller
`GeneralPurpose1 + i`, `invert = false`, `min = 0`, `max = 1`. -/
def defaultConfig : Fin 16 → PortConfig := fun i =>
  { channel := 0
    controller := ccGeneralPurpose1 + i.val
    range := { invert := false, min := 0, max := 1 } }

/-- The channel branch of `Device::importConfiguration` in firmware v24
(`src/firmware/express/express.ino` lines 283-292), taking the `uint8_t`
value read from `jsonPort["channel"]`:

    if (channel < 1)       config.ports[i].channel = 0;
    else if (channel > 16) config.ports[i].channel = 95;
    else                   config.ports[i].channel = channel - 1; -/
def importChannelV24 (channel : Nat) : Nat :=
  if channel < 1 then 0
  else if channel > 16 then 95
  else channel - 1

/-- The channel branch of `Device::importConfiguration` in firmware v22
(`src/express.ino` lines 171-180), taking the `uint8_t` value read from
`json_midi["channel"]`:

    if (channel < 1)       config.channel = 0;
    else if (channel > 16) config.channel = 15;
    else                   config.channel = channel - 1; -/
def importChannelV22 (channel : Nat) : Nat :=
  if channel < 1 then 0
  else if channel > 16 then 15
  else channel - 1

/-- The controller branch of `Device::importConfiguration` in firmware v24
(`src/firmware/express/express.ino` lines 294-298), taking the `uint8_t`
value read from `jsonPort["controller"]`: stored, then clamped to 127. -/
def importController (controller : Nat) : Nat :=
  if controller > 127 then 127 else controller

/-- The `range.min` write of `Device::importConfiguration` in firmware v24
(`src/firmware/express/express.ino` lines 306-314):

    float value{jsonRange["min"]};
    if (value < 0.f || value > 1.f) value = 0;
    config.ports[i].range.min = value;
    if (config.ports[i].range.min >= config.ports[i].range.max)
      config.ports[i].range.max = 1; -/
def importRangeMin (value : ℚ) (r : Range) : Range :=
  let v := if value < 0 ∨ value > 1 then 0 else value
  let r1 : Range := { r with min := v }
  if r1.min ≥ r1.max then { r1 with max := 1 } else r1

/-- The `range.max` write of `Device::importConfiguration` in firmware v24
(`src/firmware/express/express.ino` lines 316-324):

    float value{jsonRange["max"]};
    if (value < 0.f || value > 1.f) value = 1;
    config.ports[i].range.max = value;
    if (config.ports[i].range.min >= config.ports[i].range.max)
      config.ports[i].range.min = 0; -/
def importRangeMax (value : ℚ) (r : Range) : Range :=
  let v := if value < 0 ∨ value > 1 then 1 else value
  let r1 : Range := { r with max := v }
  if r1.min ≥ r1.max then { r1 with min := 0 } else r1

/-- The per-port measurement remap of `Device::handleLoop`'s `measurePort`
lambda in firmware v24 (`src/firmware/express/express.ino` lines 140-153),
with `raw` the normalized ADC reading:

    if (range.invert) measure = 1.f - measure;
    float value{measure - range.min};
    if (value < 0.f) return 0;
    value *= 1.f / (range.max - range.min);
    return value; -/
def measurePort (r : Range) (raw : ℚ) : ℚ :=
  let measure := if r.invert then 1 - raw else raw
  let value := measure - r.min
  if value < 0 then 0
  else value * (1 / (r.max - r.min))

/-- Mutable per-device runtime state of firmware v24: the `_steps` cache
(`uint8_t _steps[16]`, the last emitted quantized step per port), the state
of the 16 `V2Potentiometer` filter instances as seen through their interface
(`getStep()`, a quantized step index, and `getFraction()`, the debounced
fractional value), and the `_rainbow` display scalar. -/
structure DeviceState where
  steps : Fin 16 → Nat
  potiStep : Fin 16 → Nat
  potiFraction : Fin 16 → ℚ
  rainbow : ℚ
deriving DecidableEq

/-- A MIDI Control Change message as assembled by
`_midi.setControlChange(channel, controller, value)`. -/
structure CC where
  channel : Nat
  controller : Nat
  value : Nat
deriving DecidableEq

/-- The effects of one `Device::sendEvents` pass: the Control Change
messages handed to `send`, the `LED.setBrightness(i, fraction)` calls, and
the device state after the pass. -/
structure EmitResult where
  messages : List CC
  leds : List (Nat × ℚ)
  state : DeviceState
deriving DecidableEq

/-- The Control Change message port `i` sends when it emits:
`setControlChange(config.ports[i].channel, config.ports[i].controller,
_potis[i].getStep())` (`src/firmware/express/express.ino` line 180). -/
def portMessage (cfg : Fin 16 → PortConfig) (st : DeviceState) (i : Fin 16) : CC :=
  { channel := (cfg i).channel
    controller := (cfg i).controller
    value := st.potiStep i }

/-- The skip test of `Device::sendEvents`
(`src/firmware/express/express.ino` line 176):
`if (!force && _steps[i] == _potis[i].getStep()) continue;`. -/
def portSkips (force : Bool) (st : DeviceState) (i : Fin 16) : Bool :=
  !force && (st.steps i == st.potiStep i)

/-- Function `Device::sendEvents(force)` (`src/firmware/express/express.ino`
lines 174-183).  The C++ loop iterates ports 0..15; each iteration reads and
writes only its own index `i` of `_steps`, so the loop is equivalent to the
independent per-port actions assembled here: every non-skipped port updates
its LED brightness, sends its Control Change, and stores its step in the
cache.  The filter instances (`_potis`) are read, never written. -/
def sendEvents (force : Bool) (cfg : Fin 16 → PortConfig) (st : DeviceState) : EmitResult :=
  { messages := (List.finRange 16).filterMap (fun i =>
      if portSkips force st i then none else some (portMessage cfg st i)),
    leds := (List.finRange 16).filterMap (fun i =>
      if portSkips force st i then none else some (i.val, st.potiFraction i)),
    state := { st with steps := fun i =>
      if (portSkips force st i) then st.steps i else st.potiStep i } }

/-- Function `Device::handleReset` (`src/firmware/express/express.ino` lines
122-133): resets the LED strip, calls `reset()` on every filter, clears the
`_steps` cache with `memset(_steps, 0, sizeof(_steps))`, and zeroes the
timers, the rainbow scalar, and the scratch packet.

Modelled from the spec: `V2Potentiometer::reset` (an excluded collaborator,
not in this repository) returns the filter to its power-on state; per the
filter's interface contract the power-on quantized step and fractional
value are 0, so `potiStep` and `potiFraction` are cleared to 0 here. -/
def handleReset (st : DeviceState) : DeviceState :=
  { steps := fun _ => 0
    potiStep := fun _ => 0
    potiFraction := fun _ => 0
    rainbow := 0 }

/-- Constant `V2MIDI::CC::AllSoundOff`, the standard MIDI controller number 120. -/
def ccAllSoundOff : Nat := 120

/-- Constant `V2MIDI::CC::AllNotesOff`, the standard MIDI controller number 123. -/
def ccAllNotesOff : Nat := 123

/-- Constant `CC::Rainbow = V2MIDI::CC::Controller90`, controller number 90
(`src/firmware/express/express.ino` line 37). -/
def ccRainbow : Nat := 90

/-- Function `Device::handleControlChange` (`src/firmware/express/express.ino`
lines 193-208): controller `Rainbow` updates the `_rainbow` display scalar
(its LED-only effect is outside the modelled state); `AllNotesOff` and
`AllSoundOff` call `allNotesOff()`, which is `sendEvents(true)` (lines
135-137); every other controller does nothing. -/
def handleControlChange (cfg : Fin 16 → PortConfig) (st : DeviceState)
    (controller value : Nat) : EmitResult :=
  if controller = ccRainbow then
    { messages := [], leds := [], state := { st with rainbow := value / 127 } }
  else if controller = ccAllNotesOff ∨ controller = ccAllSoundOff then
    sendEvents true cfg st
  else
    { messages := [], leds := [], state := st }

/-- The two transports `Device::handleSend` writes to. -/
inductive Transport where
  | usb
  | plug
deriving DecidableEq

/-- Function `Device::handleSend` (`src/firmware/express/express.ino` lines
168-172): every packet the device sends is written to the USB MIDI
transport and then to the upstream Plug link, unconditionally:

    usb.midi.send(midi);
    Plug.send(midi);
    return true; -/
def handleSend (m : CC) : List (Transport × CC) × Bool :=
  ([(Transport.usb, m), (Transport.plug, m)], true)

/-- The transport writes produced by a list of device-emitted messages,
each routed through `handleSend` (the `send` path of `V2Device`). -/
def transmit (msgs : List CC) : List (Transport × CC) :=
  msgs.flatMap fun m => (handleSend m).1

/-- A USB MIDI packet as seen by the dispatch code: its cable/port field
(`getPort`/`setPort`) and its payload (opaque here, carried along). -/
structure MidiPacket where
  port : Nat
  payload : Nat
deriving DecidableEq

/-- What `MIDI::loop` does with one received USB packet: hands it to the
local dispatcher, or forwards it on the downstream Socket link, or (for
completeness of the routing statement) the upstream Plug link — the code
never sends a USB-inbound packet to Plug. -/
structure MidiLoopEffects where
  dispatched : Option MidiPacket
  toSocket : Option MidiPacket
  toPlug : Option MidiPacket
deriving DecidableEq

/-- Function `MIDI::loop` on one packet received from the USB host
(`src/firmware/express/express.ino` lines 391-402; identical logic at
`src/express.ino` lines 217-228):

    if (_midi.getPort() == 0) {
      Device.dispatch(&Device.usb.midi, &_midi);
    } else {
      _midi.setPort(_midi.getPort() - 1);
      Socket.send(&_midi);
    } -/
def midiLoop (p : MidiPacket) : MidiLoopEffects :=
  if p.port = 0 then
    { dispatched := some p, toSocket := none, toPlug := none }
  else
    { dispatched := none, toSocket := some { p with port := p.port - 1 }, toPlug := none }

/-- The packet type tag of a link packet (`V2Link::Packet::Type`); the
dispatch code only acts on `MIDI`. -/
inductive PacketType where
  | midi
  | other
deriving DecidableEq

/-- A packet arriving on a link transport: its type tag, its 4-bit address
field (`getAddress`), and its MIDI payload (opaque, carried along). -/
structure LinkPacket where
  type : PacketType
  address : Nat
  payload : Nat
deriving DecidableEq

/-- Function `Link::receiveSocket` (`src/firmware/express/express.ino` lines
427-439): the USB packet sent to the host, if any.

    if (packet->getType() == V2Link::Packet::Type::MIDI) {
      uint8_t address = packet->getAddress();
      if (address == 0x0f) return;
      if (Device.usb.midi.connected()) {
        packet->receive(&_midi);
        _midi.setPort(address + 1);
        Device.usb.midi.send(&_midi);
      }
    } -/
def receiveSocket (usbConnected : Bool) (pkt : LinkPacket) : Option MidiPacket :=
  if pkt.type = PacketType.midi then
    if pkt.address = 0x0f then none
    else if usbConnected then some { port := pkt.address + 1, payload := pkt.payload }
    else none
  else none

/-- A device state used as a concrete pre-reset scenario: every sensor at
its rest position (quantized step 0), every cache entry already emitted. -/
def stPre : DeviceState :=
  { steps := fun _ => 0, potiStep := fun _ => 0, potiFraction := fun _ => 0, rainbow := 0 }

/-- A concrete running device state: every cache entry 3, every filter at
step 7 with fraction 1/2. -/
def stRun : DeviceState :=
  { steps := fun _ => 3, potiStep := fun _ => 7, potiFraction := fun _ => 1/2, rainbow := 0 }

/-- A concrete post-reset state after one measurement pass: cache cleared
to 0, port 0's filter at step 5, every other filter at step 0. -/
def stPost : DeviceState :=
  { steps := fun _ => 0, potiStep := fun i => if i.val = 0 then 5 else 0,
    potiFraction := fun _ => 0, rainbow := 0 }

/-- Counting the emitted entries of a skip/emit `filterMap` pass: the
result length is the number of non-skipped indices. -/
theorem length_filterMap_ite {α β : Type} (l : List α) (q : α → Bool) (g : α → β) :
    (l.filterMap fun i => if q i then none else some (g i)).length
      = l.countP fun i => !q i := by
  induction l with
  | nil => rfl
  | cons a t ih =>
    by_cases h : q a
    · simp [List.filterMap_cons, List.countP_cons, h, ih]
    · simp [List.filterMap_cons, List.countP_cons, h, ih]

/-- A skip/emit `filterMap` pass that skips every index emits nothing. -/
theorem filterMap_ite_true_eq_nil {α β : Type} (l : List α) (q : α → Bool) (g : α → β)
    (h : ∀ i ∈ l, q i = true) :
    (l.filterMap fun i => if q i then none else some (g i)) = [] := by
  induction l with
  | nil => rfl
  | cons a t ih =>
    have ha := h a (List.mem_cons_self a t)
    simp [List.filterMap_cons, ha, ih fun i hi => h i (List.mem_cons_of_mem a hi)]

/-- A skip/emit `filterMap` pass that skips no index emits every entry. -/
theorem filterMap_ite_false_eq_map {α β : Type} (l : List α) (q : α → Bool) (g : α → β)
    (h : ∀ i ∈ l, q i = false) :
    (l.filterMap fun i => if q i then none else some (g i)) = l.map g := by
  induction l with
  | nil => rfl
  | cons a t ih =>
    have ha := h a (List.mem_cons_self a t)
    simp [List.filterMap_cons, ha, ih fun i hi => h i (List.mem_cons_of_mem a hi)]

/-- Boolean equality of naturals is symmetric. -/
theorem nat_beq_comm (a b : Nat) : (a == b) = (b == a) := by
  rw [Bool.eq_iff_iff]
  simp only [beq_iff_eq]
  exact eq_comm

/-- The stored `min` after a `range.min` import write: in-range values are
stored as given, out-of-range values are replaced by the default 0. -/
theorem importRangeMin_min (value : ℚ) (r : Range) :
    (importRangeMin value r).min = if value < 0 ∨ value > 1 then 0 else value := by
  simp only [importRangeMin]
  split_ifs <;> rfl

/-- The stored `max` after a `range.max` import write: in-range values are
stored as given, out-of-range values are replaced by the default 1. -/
theorem importRangeMax_max (value : ℚ) (r : Range) :
    (importRangeMax value r).max = if value < 0 ∨ value > 1 then 1 else value := by
  simp only [importRangeMax]
  split_ifs <;> rfl

/-- Claim C1 (code bug, evaluation at the failing input): importing
`range.min = 1.0` into the default range `{min 0, max 1}` is accepted
(1.0 is in `[0,1]`), the repair resets `max` to its default 1, yet the
resulting configuration has `min = max = 1`, so the invariant
`min < max` does NOT hold after the write.  Symmetrically, importing
`range.max = 0.0` leaves `min = max = 0`.  The subsequent remap
`measurePort` then divides by `max - min = 0`. -/
theorem c1_min_max_invariant_failing :
    (importRangeMin 1 { invert := false, min := 0, max := 1 }).min = 1
    ∧ (importRangeMin 1 { invert := false, min := 0, max := 1 }).max = 1
    ∧ ¬((importRangeMin 1 { invert := false, min := 0, max := 1 }).min
        < (importRangeMin 1 { invert := false, min := 0, max := 1 }).max)
    ∧ (importRangeMax 0 { invert := false, min := 0, max := 1 }).min = 0
    ∧ (importRangeMax 0 { invert := false, min := 0, max := 1 }).max = 0 := by
  norm_num [importRangeMin, importRangeMax]

/-- Claim C2 (code bug, evaluation at the failing input): the channel
importing code of the current firmware (v24) stores 95 — not 15 — for any input
above 16, while the older firmware revision (v22) stores 15.  The in-range
and low clamps behave as claimed in both revisions. -/
theorem c2_channel_clamp_failing :
    importChannelV24 17 = 95
    ∧ importChannelV24 17 ≠ 15
    ∧ importChannelV22 17 = 15
    ∧ importChannelV24 0 = 0
    ∧ importChannelV22 0 = 0
    ∧ importChannelV24 1 = 0
    ∧ importChannelV24 16 = 15
    ∧ importChannelV22 16 = 15 := by
  decide

/-- Claim C9 counterexample: an out-of-range `range.min` import input of
1.5 stores 0.0 (the field's default), not 1.0 (the nearest valid bound the
claim requires). -/
theorem c9_counterexample_no_nearest_clamp :
    (importRangeMin (3/2) { invert := false, min := 0, max := 1 }).min = 0
    ∧ (importRangeMin (3/2) { invert := false, min := 0, max := 1 }).min ≠ 1 := by
  norm_num [importRangeMin]

/-- Claim C9 as amended: an out-of-range `range.min` or `range.max` import
input is never rejected, but it is replaced by the field's default (0 for
`min`, 1 for `max`) rather than clamped to the nearest bound of `[0,1]`;
in-range inputs are stored as given.  (For a low out-of-range input this
coincides with nearest-bound clamping; for a high `min` input or a low
`max` input it does not: `min = 1.5` stores 0.0, not 1.0.) -/
theorem c9_amended_default_reset (value : ℚ) (r : Range) :
    ((value < 0 ∨ value > 1) →
       (importRangeMin value r).min = 0 ∧ (importRangeMax value r).max = 1)
    ∧ (0 ≤ value → value ≤ 1 →
       (importRangeMin value r).min = value ∧ (importRangeMax value r).max = value) := by
  constructor
  · intro h
    rw [importRangeMin_min, importRangeMax_max, if_pos h, if_pos h]
    exact ⟨rfl, rfl⟩
  · intro h0 h1
    have h : ¬(value < 0 ∨ value > 1) := by
      push_neg
      exact ⟨h0, h1⟩
    rw [importRangeMin_min, importRangeMax_max, if_neg h, if_neg h]
    exact ⟨rfl, rfl⟩

/-- Witness for the amended claim C9 at the concrete out-of-range input
1.5: the stored `min` is the default 0 and the stored `max` is the
default 1. -/
theorem c9_amended_witness :
    ((3/2:ℚ) < 0 ∨ (3/2:ℚ) > 1)
    ∧ (importRangeMin (3/2) { invert := false, min := 0, max := 1 }).min = 0
    ∧ (importRangeMax (3/2) { invert := false, min := 0, max := 1 }).max = 1 := by
  have h : ((3/2:ℚ) < 0 ∨ (3/2:ℚ) > 1) := Or.inr (by norm_num)
  exact ⟨h, (c9_amended_default_reset (3/2) { invert := false, min := 0, max := 1 }).1 h⟩

/-- Claim C4: for every raw measurement in `[0,1]` and a valid range
configuration with `min < max`, the value handed to the smoothing filter
equals `max(0, (invert ? 1-r : r) - min) / (max - min)`; only the lower
bound is clamped to 0 before the filter, and the second conjunct exhibits
a configuration under which the value passed through exceeds 1. -/
theorem c4_measure_remap (r : Range) (raw : ℚ)
    (hmm : r.min < r.max) (h0 : 0 ≤ raw) (h1 : raw ≤ 1) :
    measurePort r raw
      = max 0 ((if r.invert then 1 - raw else raw) - r.min) / (r.max - r.min)
    ∧ 1 < measurePort { invert := false, min := 0, max := 1/2 } 1 := by
  constructor
  · unfold measurePort
    by_cases h : (if r.invert then 1 - raw else raw) - r.min < 0
    · rw [if_pos h, max_eq_left (le_of_lt h), zero_div]
    · rw [if_neg h, max_eq_right (not_lt.mp h), mul_one_div]
  · norm_num [measurePort]

/-- Witness for claim C4 at the default range and raw reading 1/2: the
remapped value is 1/2. -/
theorem c4_witness :
    ((0:ℚ) < 1 ∧ (0:ℚ) ≤ 1/2 ∧ (1/2:ℚ) ≤ 1)
    ∧ measurePort { invert := false, min := 0, max := 1 } (1/2) = 1/2 := by
  refine ⟨⟨by norm_num, by norm_num, by norm_num⟩, ?_⟩
  have h := (c4_measure_remap { invert := false, min := 0, max := 1 } (1/2)
    (by norm_num) (by norm_num) (by norm_num)).1
  rw [h]
  norm_num

/-- Claim C5: a USB-inbound packet with port field 0 is handed to local
MIDI dispatch and is never forwarded to either link transport; a packet
with port field `N > 0` is not dispatched locally and is forwarded on a
link (the downstream Socket) with its port field decremented to `N - 1`. -/
theorem c5_usb_routing (p : MidiPacket) :
    (p.port = 0 →
       midiLoop p = { dispatched := some p, toSocket := none, toPlug := none })
    ∧ (0 < p.port →
       midiLoop p = { dispatched := none,
                      toSocket := some { p with port := p.port - 1 },
                      toPlug := none }) := by
  constructor
  · intro h
    simp [midiLoop, h]
  · intro h
    have hne : ¬p.port = 0 := by omega
    simp [midiLoop, hne]

/-- Witness for claim C5: the packet with port field 3 is forwarded with
port field 2 and is not dispatched locally. -/
theorem c5_witness :
    (0 < (3:Nat)
      ∧ midiLoop { port := 3, payload := 42 }
          = { dispatched := none, toSocket := some { port := 2, payload := 42 },
              toPlug := none })
    ∧ ((3:Nat) = 0 → False) := by
  refine ⟨⟨by decide, ?_⟩, by decide⟩
  exact (c5_usb_routing { port := 3, payload := 42 }).2 (by decide)

/-- Claim C6: a MIDI-type packet received on the downstream Socket link
with address `0x0f` is dropped and never forwarded to USB; one with
address `A < 0x0f` is forwarded to the USB host with port field `A + 1`
exactly when the USB host is connected, and is dropped (not queued)
otherwise. -/
theorem c6_socket_routing (usbConnected : Bool) (pkt : LinkPacket)
    (h : pkt.type = PacketType.midi) :
    (pkt.address = 0x0f → receiveSocket usbConnected pkt = none)
    ∧ (pkt.address < 0x0f →
        receiveSocket usbConnected pkt
          = if usbConnected then some { port := pkt.address + 1, payload := pkt.payload }
            else none) := by
  constructor
  · intro ha
    simp [receiveSocket, h, ha]
  · intro ha
    have hne : ¬pkt.address = 0x0f := by omega
    simp [receiveSocket, h, hne]

/-- Witness for claim C6: a MIDI packet with address 3 is forwarded to a
connected USB host with port field 4, and dropped when the host is
disconnected. -/
theorem c6_witness :
    ((LinkPacket.mk PacketType.midi 3 9).type = PacketType.midi ∧ (3:Nat) < 0x0f)
    ∧ receiveSocket true { type := PacketType.midi, address := 3, payload := 9 }
        = some { port := 4, payload := 9 }
    ∧ receiveSocket false { type := PacketType.midi, address := 3, payload := 9 }
        = none := by
  refine ⟨⟨rfl, by decide⟩, ?_, ?_⟩
  · have h := (c6_socket_routing true { type := PacketType.midi, address := 3, payload := 9 }
      rfl).2 (by decide)
    simpa using h
  · have h := (c6_socket_routing false { type := PacketType.midi, address := 3, payload := 9 }
      rfl).2 (by decide)
    simpa using h

/-- Claim C7: a forced re-send — triggered by an `AllNotesOff` or
`AllSoundOff` Control Change — emits exactly 16 Control Change messages,
one per port in port order, each carrying that port's configured channel,
configured controller number and current quantized step, regardless of the
emitted-step cache; the filter state (`potiStep`, `potiFraction`) is not
reset. -/
theorem c7_forced_resend (cfg : Fin 16 → PortConfig) (st : DeviceState)
    (controller value : Nat)
    (h : controller = ccAllNotesOff ∨ controller = ccAllSoundOff) :
    (handleControlChange cfg st controller value).messages
        = (List.finRange 16).map (portMessage cfg st)
    ∧ (handleControlChange cfg st controller value).messages.length = 16
    ∧ (handleControlChange cfg st controller value).state.potiStep = st.potiStep
    ∧ (handleControlChange cfg st controller value).state.potiFraction = st.potiFraction := by
  have hne : ¬controller = ccRainbow := by
    rcases h with h | h <;> simp [h, ccAllNotesOff, ccAllSoundOff, ccRainbow]
  have hcc : handleControlChange cfg st controller value = sendEvents true cfg st := by
    simp [handleControlChange, hne, h]
  have hskip : ∀ i ∈ List.finRange 16, portSkips true st i = false := by
    intro i _
    simp [portSkips]
  have hmsg : (sendEvents true cfg st).messages
      = (List.finRange 16).map (portMessage cfg st) :=
    filterMap_ite_false_eq_map _ _ _ hskip
  refine ⟨by rw [hcc, hmsg], by rw [hcc, hmsg]; simp, by rw [hcc]; rfl, by rw [hcc]; rfl⟩

/-- Witness for claim C7: an `AllNotesOff` Control Change (controller 123)
on a running device forces exactly 16 messages. -/
theorem c7_witness :
    ((123:Nat) = ccAllNotesOff ∨ (123:Nat) = ccAllSoundOff)
    ∧ (handleControlChange defaultConfig stRun 123 0).messages.length = 16 :=
  ⟨Or.inl rfl, (c7_forced_resend defaultConfig stRun 123 0 (Or.inl rfl)).2.1⟩

/-- Claim C8: unforced emission is idempotent per step.  On an emission
tick, the number of Control Change messages and of LED updates equals the
number of ports whose current quantized step differs from the cached
emitted step (so an unchanged port emits neither); and immediately
repeating the unforced pass on the resulting state with unchanged input
emits no message and no LED update at all — at most one message per step
transition, never one per tick. -/
theorem c8_unforced_idempotent (cfg : Fin 16 → PortConfig) (st : DeviceState) :
    (sendEvents false cfg st).messages.length
        = ((List.finRange 16).countP fun i => !(st.steps i == st.potiStep i))
    ∧ (sendEvents false cfg st).leds.length
        = ((List.finRange 16).countP fun i => !(st.steps i == st.potiStep i))
    ∧ (sendEvents false cfg ((sendEvents false cfg st).state)).messages = []
    ∧ (sendEvents false cfg ((sendEvents false cfg st).state)).leds = [] := by
  have hq : (fun i : Fin 16 => !(portSkips false st i))
      = fun i : Fin 16 => !(st.steps i == st.potiStep i) := by
    funext i
    simp [portSkips]
  have h1 : (sendEvents false cfg st).messages.length
      = (List.finRange 16).countP fun i => !(portSkips false st i) :=
    length_filterMap_ite _ _ _
  have h2 : (sendEvents false cfg st).leds.length
      = (List.finRange 16).countP fun i => !(portSkips false st i) :=
    length_filterMap_ite _ _ _
  have hsteps : ∀ i, (sendEvents false cfg st).state.steps i = st.potiStep i := by
    intro i
    show (if (portSkips false st i) then st.steps i else st.potiStep i) = st.potiStep i
    by_cases hc : portSkips false st i
    · rw [if_pos hc]
      have hb : (st.steps i == st.potiStep i) = true := by simpa [portSkips] using hc
      exact eq_of_beq hb
    · rw [if_neg hc]
  have hall : ∀ i ∈ List.finRange 16,
      portSkips false ((sendEvents false cfg st).state) i = true := by
    intro i _
    have hp : (sendEvents false cfg st).state.potiStep i = st.potiStep i := rfl
    simp [portSkips, hsteps i, hp]
  exact ⟨by rw [h1, hq], by rw [h2, hq],
    filterMap_ite_true_eq_nil _ _ _ hall, filterMap_ite_true_eq_nil _ _ _ hall⟩

/-- Claim C3 counterexample: `handleReset` clears the emitted-step cache
with `memset(_steps, 0, ...)` — the value 0, which is NOT a sentinel
distinct from every current step: it coincides with a filter at step 0.
In the concrete scenario `stPre` (every sensor at its rest position,
quantized step 0, before and after the reset), the first unforced emission
cycle after the reset emits zero Control Change messages, not the 16 the
claim requires. -/
theorem c3_counterexample_no_resend :
    (handleReset stPre).steps 0 = 0
    ∧ (handleReset stPre).potiStep 0 = 0
    ∧ (sendEvents false defaultConfig (handleReset stPre)).messages = []
    ∧ (sendEvents false defaultConfig (handleReset stPre)).messages.length ≠ 16 := by
  refine ⟨rfl, rfl, by decide, by decide⟩

/-- Claim C3 as amended: after a system reset the emitted-step cache of
every port is cleared to 0 (a valid step value, not a distinct sentinel),
so the first unforced emission cycle afterwards sends one Control Change
exactly for each port whose current quantized step is nonzero; a port
whose step is 0 — in particular every port when all sensors sit at the
power-on position — emits nothing. -/
theorem c3_amended_reset_emission (cfg : Fin 16 → PortConfig) (st post : DeviceState)
    (hsteps : post.steps = (handleReset st).steps) :
    (sendEvents false cfg post).messages.length
      = ((List.finRange 16).countP fun i => !(post.potiStep i == 0)) := by
  have h1 : (sendEvents false cfg post).messages.length
      = (List.finRange 16).countP fun i => !(portSkips false post i) :=
    length_filterMap_ite _ _ _
  rw [h1]
  congr 1
  funext i
  have hz : post.steps i = 0 := by rw [hsteps]; rfl
  simp only [portSkips, hz, Bool.not_false, Bool.true_and]
  rw [nat_beq_comm]

/-- Witness for the amended claim C3: in the concrete post-reset state
`stPost` (cache cleared to 0, port 0's filter at step 5, all others at
step 0) the first emission cycle sends exactly one message. -/
theorem c3_amended_witness :
    (stPost.steps = (handleReset stPre).steps)
    ∧ (sendEvents false defaultConfig stPost).messages.length
        = ((List.finRange 16).countP fun i => !(stPost.potiStep i == 0))
    ∧ (sendEvents false defaultConfig stPost).messages.length = 1 := by
  refine ⟨rfl, c3_amended_reset_emission defaultConfig stPre stPost rfl, by decide⟩

/-- Splitting the transport log around one emitted message: every message
of the list appears in the transmission log as a USB write immediately
followed by a Plug write. -/
theorem transmit_mem_split (l : List CC) (m : CC) (h : m ∈ l) :
    ∃ pre post, transmit l = pre ++ (Transport.usb, m) :: (Transport.plug, m) :: post := by
  induction l with
  | nil => cases h
  | cons a t ih =>
    rcases List.mem_cons.mp h with rfl | hm
    · exact ⟨[], transmit t, rfl⟩
    · obtain ⟨pre, post, hp⟩ := ih hm
      refine ⟨(Transport.usb, a) :: (Transport.plug, a) :: pre, post, ?_⟩
      have ht : transmit (a :: t) = (Transport.usb, a) :: (Transport.plug, a) :: transmit t := rfl
      rw [ht, hp]
      rfl

/-- Claim C10: every Control Change the device itself emits in an emission
pass (forced or not) is handed to `handleSend`, which writes it to the USB
transport and the upstream Plug link, unconditionally and in that order:
in the transmission log of the pass, the message's USB write is
immediately followed by its Plug write. -/
theorem c10_emitted_to_usb_then_plug (force : Bool) (cfg : Fin 16 → PortConfig)
    (st : DeviceState) (m : CC)
    (h : m ∈ (sendEvents force cfg st).messages) :
    handleSend m = ([(Transport.usb, m), (Transport.plug, m)], true)
    ∧ ∃ pre post,
        transmit (sendEvents force cfg st).messages
          = pre ++ (Transport.usb, m) :: (Transport.plug, m) :: post :=
  ⟨rfl, transmit_mem_split _ m h⟩

/-- Witness for claim C10: in a forced pass on a running device, port 0's
message (channel 0, controller 16, step 7) is written to USB immediately
followed by Plug. -/
theorem c10_witness :
    (CC.mk 0 16 7 ∈ (sendEvents true defaultConfig stRun).messages)
    ∧ ∃ pre post,
        transmit (sendEvents true defaultConfig stRun).messages
          = pre ++ (Transport.usb, CC.mk 0 16 7) :: (Transport.plug, CC.mk 0 16 7) :: post := by
  have hm : CC.mk 0 16 7 ∈ (sendEvents true defaultConfig stRun).messages := by decide
  exact ⟨hm, (c10_emitted_to_usb_then_plug true defaultConfig stRun (CC.mk 0 16 7) hm).2⟩
